import Mathlib

/-!
A shallow embedding of the two scripts of the `workflow-automation` repository:
`scripts/assign_from_viber.py` (the candidate-ranking and assignment engine)
and `scripts/daily_morning.py` (the digest formatter).

The remote record gateway is modelled by in-memory tables (lists of records);
a gateway `search_read` with a filter becomes a `List.filter` over the table,
`read` by ids becomes a lookup, and the single assignment `write` becomes an
element of an explicit list of issued writes.  Interactive console reads are
modelled as string parameters (`yn`, `sel`), `--dry-run` as a boolean, and the
boolean result of the final gateway write as a boolean parameter.

Python `datetime` objects are modelled by `PyDateTime`: calendar fields plus
an `aware` flag.  Python refuses to order-compare a timezone-naive datetime
against a timezone-aware one (it raises `TypeError`); the model mirrors this
by returning `Except.error` from the comparison exactly when the two `aware`
flags differ (the only aware values in the scripts are UTC, so field-wise
comparison is the correct model when the flags agree).
-/

/-- Model of a Python `datetime`: calendar fields plus timezone-awareness. -/
structure PyDateTime where
  year : Nat
  month : Nat
  day : Nat
  hour : Nat
  minute : Nat
  second : Nat
  aware : Bool
deriving DecidableEq

/-- Lexicographic field comparison `a ≤ b` on the six calendar fields. -/
def dtFieldsLe (a b : PyDateTime) : Bool :=
  if a.year ≠ b.year then a.year < b.year
  else if a.month ≠ b.month then a.month < b.month
  else if a.day ≠ b.day then a.day < b.day
  else if a.hour ≠ b.hour then a.hour < b.hour
  else if a.minute ≠ b.minute then a.minute < b.minute
  else a.second ≤ b.second

/-- Python `a >= b` on datetimes: raises `TypeError` (modelled as
`Except.error`) when exactly one side is timezone-aware, otherwise compares
the fields. -/
def pyGE (a b : PyDateTime) : Except Unit Bool :=
  if a.aware = b.aware then .ok (dtFieldsLe b a) else .error ()

def digitVal (c : Char) : Nat := c.toNat - 48

/-- Read exactly two decimal digits from the front of the character list. -/
def read2 : List Char → Option (Nat × List Char)
  | a :: b :: cs =>
    if a.isDigit && b.isDigit then some (digitVal a * 10 + digitVal b, cs) else none
  | _ => none

/-- Read exactly four decimal digits from the front of the character list. -/
def read4 : List Char → Option (Nat × List Char)
  | a :: b :: c :: d :: cs =>
    if a.isDigit && b.isDigit && c.isDigit && d.isDigit then
      some (((digitVal a * 10 + digitVal b) * 10 + digitVal c) * 10 + digitVal d, cs)
    else none
  | _ => none

def expectChar (ch : Char) : List Char → Option (List Char)
  | c :: cs => if c = ch then some cs else none
  | _ => none

def isLeap (y : Nat) : Bool := (y % 4 == 0 && y % 100 != 0) || (y % 400 == 0)

def daysInMonth (y m : Nat) : Nat :=
  if m = 2 then (if isLeap y then 29 else 28)
  else if m = 4 ∨ m = 6 ∨ m = 9 ∨ m = 11 then 30
  else 31

/-- Model of `datetime.strptime(s, "%Y-%m-%d %H:%M:%S")`: parses the
zero-padded timestamp format produced by the remote system and validates the
field ranges; the result is timezone-naive (`aware = false`).  Any failure —
wrong shape or out-of-range field — is `none` (Python raises `ValueError`,
which the caller catches). -/
def strptimeDT (s : String) : Option PyDateTime := do
  let cs := s.toList
  let (y, cs) ← read4 cs
  let cs ← expectChar '-' cs
  let (mo, cs) ← read2 cs
  let cs ← expectChar '-' cs
  let (d, cs) ← read2 cs
  let cs ← expectChar ' ' cs
  let (h, cs) ← read2 cs
  let cs ← expectChar ':' cs
  let (mi, cs) ← read2 cs
  let cs ← expectChar ':' cs
  let (sec, cs) ← read2 cs
  if cs = [] ∧ 1 ≤ mo ∧ mo ≤ 12 ∧ 1 ≤ d ∧ d ≤ daysInMonth y mo ∧
      h ≤ 23 ∧ mi ≤ 59 ∧ sec ≤ 59 then
    some ⟨y, mo, d, h, mi, sec, false⟩
  else none

/-- A `project.task` record as returned by the gateway queries in
`assign_from_viber.py` (fields `id`, `project_id`, `stage_id`, `user_id`,
`write_date`; `user_id` is an id-name pair or absent, `write_date` may be
absent). -/
structure TaskRec where
  id : Nat
  projectId : Nat
  stageId : Nat
  userId : Option (Nat × String)
  writeDate : Option String
deriving DecidableEq

/-- A `project.task.type` (stage) record: `id`, `name`, `fold`. -/
structure Stage where
  id : Nat
  name : String
  fold : Bool
deriving DecidableEq

/-- A `res.users` record: `id`, `name`, `login`, `email` (the latter two may
be unset). -/
structure UserRec where
  id : Nat
  name : String
  login : Option String
  email : Option String
deriving DecidableEq

def taskUser (t : TaskRec) : Option Nat := t.userId.map Prod.fst

/-- The workload query of `main` (lines 211-217): tasks of the project whose
stage is in the resolved open-stage set and whose assignee is set. -/
def openTasksFor (tasks : List TaskRec) (pid : Nat) (stageIds : List Nat) : List TaskRec :=
  tasks.filter (fun t => t.projectId == pid && stageIds.contains t.stageId && t.userId.isSome)

/-- The value `counts.get(u, 0)` after the aggregation loop (lines 218-226):
the number of open tasks assigned to developer `u`. -/
def workloadCounts (tasks : List TaskRec) (u : Nat) : Nat :=
  (tasks.filter (fun t => taskUser t == some u)).length

/-- The recency contribution of one record's `write_date` (lines 227-234):
a missing date contributes nothing; a date that fails to parse is swallowed
by the bare `except` and contributes nothing; a parsed (naive) date is
compared with `dt >= cutoff`, and if that comparison raises (naive vs aware)
the bare `except` swallows that too. -/
def recentContribution (cutoff : PyDateTime) : Option String → Bool
  | none => false
  | some s =>
    match strptimeDT s with
    | none => false
    | some dt =>
      match pyGE dt cutoff with
      | .error _ => false
      | .ok b => b

/-- The value `recent.get(u, False)` after the aggregation loop: true iff
some open task of developer `u` contributed recency. -/
def recentOf (cutoff : PyDateTime) (tasks : List TaskRec) (u : Nat) : Bool :=
  tasks.any (fun t => taskUser t == some u && recentContribution cutoff t.writeDate)

/-- Insertion-order deduplication: the key order of a Python dict built by
repeated `counts.get`/assignment (first occurrence wins). -/
def firstDedup {α : Type} [DecidableEq α] (l : List α) : List α :=
  l.foldl (fun acc a => if a ∈ acc then acc else acc ++ [a]) []

/-- `list(counts.keys())`: the distinct assignee ids of the open tasks, in
first-occurrence order. -/
def countsKeys (tasks : List TaskRec) : List Nat :=
  firstDedup (tasks.filterMap taskUser)

/-- Stage ids matching the configured names (lines 189-196):
`search_read("project.task.type", [("name", "in", open_stage_names)])`. -/
def stageIdsByName (names : List String) (stages : List Stage) : List Nat :=
  (stages.filter (fun s => names.contains s.name)).map (·.id)

/-- Stage ids of the non-folded stages (lines 198-205):
`search_read("project.task.type", [("fold", "=", False)])`. -/
def nonFoldedIds (stages : List Stage) : List Nat :=
  (stages.filter (fun s => s.fold = false)).map (·.id)

/-- The stage resolution of `main` (lines 187-208): resolve the configured
open-stage names; if the configured list is empty or resolves to no ids, fall
back to the non-folded stages; if that is also empty the ticket is skipped
(`none`). -/
def resolveStages (names : List String) (stages : List Stage) : Option (List Nat) :=
  let byName := if names.isEmpty then [] else stageIdsByName names stages
  let ids := if byName.isEmpty then nonFoldedIds stages else byName
  if ids.isEmpty then none else some ids

/-- `resolve_users` for one identifier (lines 73-82): search `res.users` with
the disjunctive domain `login = ident ∨ email = ident ∨ name = ident`,
`limit=1` — the first matching record in table order, if any. -/
def resolveUser (users : List UserRec) (ident : String) : Option UserRec :=
  users.find? (fun u => u.login == some ident || u.email == some ident || u.name == ident)

/-- `preferred_ids` (line 241): the ids of the identifiers that resolved,
in identifier order; unresolved identifiers are reported but dropped. -/
def resolvedPreferredIds (users : List UserRec) (idents : List String) : List Nat :=
  (idents.filterMap (resolveUser users)).map (·.id)

/-- `pick_project_key` (lines 85-93): exact project name, then stringified
project id, then the literal "default" key, else none. -/
def pickProjectKey (preferredMap : List (String × List String)) (projectId : Nat)
    (projectName : String) : Option String :=
  if (preferredMap.lookup projectName).isSome then some projectName
  else if (preferredMap.lookup (toString projectId)).isSome then some (toString projectId)
  else if (preferredMap.lookup "default").isSome then some "default"
  else none

/-- One step of `resolve_role`'s key loop (lines 102-104): a key participates
only if it is truthy (present and non-empty), and wins only if present in the
role map. -/
def roleLookup (roleMap : List (String × String)) : Option String → Option String
  | none => none
  | some k => if k = "" then none else roleMap.lookup k

/-- `resolve_role` (lines 96-105): an empty role map yields "-"; otherwise
try the user's name, login, email in that order; the first truthy key present
in the map wins; no match yields "-". -/
def resolveRole (roleMap : List (String × String)) (u : UserRec) : String :=
  if roleMap.isEmpty then "-"
  else (((roleLookup roleMap (some u.name)).orElse
      (fun _ => roleLookup roleMap u.login)).orElse
      (fun _ => roleLookup roleMap u.email)).getD "-"

/-- The static configuration and remote tables visible to one run of the
assignment engine. -/
structure Env where
  openStageNames : List String
  preferredMap : List (String × List String)
  roleMap : List (String × String)
  stages : List Stage
  users : List UserRec
  tasks : List TaskRec

/-- `preferred_ids` of `main` (lines 237-241): `None` when no preference key
matches the project, otherwise the resolved ids of the matching entry. -/
def preferredIdsFor (env : Env) (pid : Nat) (pname : String) : Option (List Nat) :=
  (pickProjectKey env.preferredMap pid pname).map
    (fun k => resolvedPreferredIds env.users ((env.preferredMap.lookup k).getD []))

/-- `candidate_ids = preferred_ids if preferred_ids else list(counts.keys())`
(line 247): both `None` and the empty list are falsy, so an entry that
resolved to zero users falls back to the workload keys. -/
def candidateIdsFor (env : Env) (pid : Nat) (pname : String)
    (tasks' : List TaskRec) : List Nat :=
  match preferredIdsFor env pid pname with
  | some ids => if ids.isEmpty then countsKeys tasks' else ids
  | none => countsKeys tasks'

/-- Python string comparison `s <= t` on the underlying character lists:
lexicographic by Unicode code point. -/
def listCharLe : List Char → List Char → Bool
  | [], _ => true
  | _ :: _, [] => false
  | a :: as, b :: bs => if a = b then listCharLe as bs else decide (a < b)

def pyStrLe (s t : String) : Bool := listCharLe s.data t.data

theorem listCharLe_total : ∀ as bs : List Char, listCharLe as bs = true ∨ listCharLe bs as = true
  | [], _ => Or.inl rfl
  | _ :: _, [] => Or.inr rfl
  | a :: as, b :: bs => by
    rcases lt_trichotomy a b with h | h | h
    · exact Or.inl (by simp [listCharLe, h, h.ne])
    · subst h
      rcases listCharLe_total as bs with ih | ih
      · exact Or.inl (by simp [listCharLe, ih])
      · exact Or.inr (by simp [listCharLe, ih])
    · exact Or.inr (by simp [listCharLe, h, h.ne])

theorem listCharLe_trans :
    ∀ as bs cs : List Char, listCharLe as bs = true → listCharLe bs cs = true →
      listCharLe as cs = true
  | [], _, _, _, _ => rfl
  | _ :: _, [], _, h1, _ => by simp [listCharLe] at h1
  | _ :: _, _ :: _, [], _, h2 => by simp [listCharLe] at h2
  | a :: as, b :: bs, c :: cs, h1, h2 => by
    by_cases hab : a = b
    · subst hab
      by_cases hbc : a = c
      · subst hbc
        simp only [listCharLe, if_pos rfl] at h1 h2 ⊢
        exact listCharLe_trans as bs cs h1 h2
      · simpa [listCharLe, hbc] using by simpa [listCharLe, hbc] using h2
    · have hab' : a < b := by simpa [listCharLe, hab] using h1
      by_cases hbc : b = c
      · subst hbc
        simp [listCharLe, hab, hab']
      · have hbc' : b < c := by simpa [listCharLe, hbc] using h2
        have hac : a < c := hab'.trans hbc'
        simp [listCharLe, hac.ne, hac]

theorem listCharLe_antisymm :
    ∀ as bs : List Char, listCharLe as bs = true → listCharLe bs as = true → as = bs
  | [], [], _, _ => rfl
  | [], _ :: _, _, h2 => by simp [listCharLe] at h2
  | _ :: _, [], h1, _ => by simp [listCharLe] at h1
  | a :: as, b :: bs, h1, h2 => by
    by_cases hab : a = b
    · subst hab
      simp only [listCharLe, if_pos rfl] at h1 h2
      rw [listCharLe_antisymm as bs h1 h2]
    · have h1' : a < b := by simpa [listCharLe, hab] using h1
      have h2' : b < a := by simpa [listCharLe, Ne.symm hab] using h2
      exact absurd h1' (lt_asymm h2')

theorem pyStrLe_total (s t : String) : pyStrLe s t = true ∨ pyStrLe t s = true :=
  listCharLe_total s.data t.data

theorem pyStrLe_trans {s t u : String} (h1 : pyStrLe s t = true) (h2 : pyStrLe t u = true) :
    pyStrLe s u = true :=
  listCharLe_trans s.data t.data u.data h1 h2

theorem pyStrLe_antisymm {s t : String} (h1 : pyStrLe s t = true) (h2 : pyStrLe t s = true) :
    s = t := by
  cases s
  cases t
  exact congrArg String.mk (listCharLe_antisymm _ _ h1 h2)

/-- Python `s <= t` as a relation, for the sorts below. -/
def strLE (s t : String) : Prop := pyStrLe s t = true

instance : DecidableRel strLE := fun s t => inferInstanceAs (Decidable (pyStrLe s t = true))

instance : IsTotal String strLE := ⟨pyStrLe_total⟩

instance : IsTrans String strLE := ⟨fun _ _ _ => pyStrLe_trans⟩

/-- An enriched candidate row (lines 255-265). -/
structure Cand where
  id : Nat
  name : String
  role : String
  count : Nat
  recent : Bool
deriving DecidableEq

/-- Enrichment of one user record (lines 256-265): attach role, open-task
count (0 when absent from the counts dict) and recent flag (false when
absent from the recent dict). -/
def enrich (roleMap : List (String × String)) (tasks' : List TaskRec)
    (cutoff : PyDateTime) (u : UserRec) : Cand :=
  ⟨u.id, u.name, resolveRole roleMap u, workloadCounts tasks' u.id, recentOf cutoff tasks' u.id⟩

/-- `read("res.users", candidate_ids)` followed by the enrichment loop
(lines 253-265): look each candidate id up in the user table and enrich it. -/
def buildCandidates (roleMap : List (String × String)) (users : List UserRec)
    (tasks' : List TaskRec) (cutoff : PyDateTime) (cids : List Nat) : List Cand :=
  (cids.filterMap (fun i => users.find? (fun u => u.id == i))).map (enrich roleMap tasks' cutoff)

/-- The sort key order of `candidates.sort(key=lambda x: (-x["count"],
x["name"]))` (line 268): descending count, ties ascending name. -/
def candLE (a b : Cand) : Prop :=
  b.count < a.count ∨ (a.count = b.count ∧ strLE a.name b.name)

instance : DecidableRel candLE := fun a b =>
  inferInstanceAs (Decidable (b.count < a.count ∨ (a.count = b.count ∧ strLE a.name b.name)))

instance : IsTotal Cand candLE := by
  constructor
  intro a b
  rcases Nat.lt_trichotomy a.count b.count with h | h | h
  · exact Or.inr (Or.inl h)
  · rcases pyStrLe_total a.name b.name with hn | hn
    · exact Or.inl (Or.inr ⟨h, hn⟩)
    · exact Or.inr (Or.inr ⟨h.symm, hn⟩)
  · exact Or.inl (Or.inl h)

instance : IsTrans Cand candLE := by
  constructor
  intro a b c hab hbc
  rcases hab with h1 | ⟨h1, hn1⟩
  · rcases hbc with h2 | ⟨h2, _⟩
    · exact Or.inl (by omega)
    · exact Or.inl (by omega)
  · rcases hbc with h2 | ⟨h2, hn2⟩
    · exact Or.inl (by omega)
    · exact Or.inr ⟨h1.trans h2, pyStrLe_trans hn1 hn2⟩

/-- `candidates.sort(...)` (line 268): Python's sort is stable; a stable sort
is modelled exactly by insertion sort on the non-strict key order. -/
def rankCandidates (l : List Cand) : List Cand :=
  List.insertionSort candLE l

/-- Python whitespace test for `str.strip()` (ASCII whitespace suffices for
the console answers this program reads). -/
def isSpaceChar (c : Char) : Bool :=
  c = ' ' ∨ c = '\t' ∨ c = '\n' ∨ c = '\r'

def dropSpaces : List Char → List Char
  | [] => []
  | c :: cs => if isSpaceChar c then dropSpaces cs else c :: cs

/-- Model of Python `str.strip()`: remove leading and trailing whitespace. -/
def pyStrip (s : String) : String :=
  ⟨dropSpaces (dropSpaces s.data.reverse).reverse⟩

/-- Model of Python `str.lower()` (ASCII case mapping suffices for the
console answers this program reads). -/
def pyLower (s : String) : String :=
  ⟨s.data.map Char.toLower⟩

/-- Model of Python `int(s)` on a string: strip, then an optional sign
followed by at least one decimal digit; anything else raises `ValueError`
(`none`). -/
def digitsToNat : List Char → Option Nat
  | [] => none
  | cs => if cs.all Char.isDigit then some (cs.foldl (fun n c => n * 10 + digitVal c) 0) else none

def pyInt (s : String) : Option Int :=
  match (pyStrip s).toList with
  | '-' :: rest => (digitsToNat rest).map (fun n => -(n : Int))
  | '+' :: rest => (digitsToNat rest).map (fun n => (n : Int))
  | cs => (digitsToNat cs).map (fun n => (n : Int))

/-- Python list indexing `l[i]` with an `Int` index: negative indices count
from the end; out-of-range indices raise `IndexError` (`none`). -/
def pyIndex {α : Type} (l : List α) (i : Int) : Option α :=
  if i < 0 then
    if (l.length : Int) + i < 0 then none else l[((l.length : Int) + i).toNat]?
  else l[i.toNat]?

/-- Result of the interactive decision (lines 277-288). -/
inductive SelResult where
  | crash
  | chosen (c : Cand)
  | skippedByUser
  | invalid
deriving DecidableEq

/-- The decision protocol of `main` (lines 277-288).  `top = candidates[0]`
runs before any prompt, so an empty candidate list would raise an uncaught
`IndexError` (`crash`; unreachable behind the non-empty guard of line 248
whenever every candidate id occurs in the user table).  A confirming "y"
picks the top candidate; a blank selection skips; otherwise
`candidates[int(sel) - 1]` is attempted and both `ValueError` and
`IndexError` are caught as an invalid selection. -/
def selectCandidate (cands : List Cand) (yn sel : String) : SelResult :=
  match cands with
  | [] => .crash
  | c0 :: _ =>
    if yn = "y" then .chosen c0
    else if sel = "" then .skippedByUser
    else
      match pyInt sel with
      | none => .invalid
      | some n =>
        match pyIndex cands (n - 1) with
        | none => .invalid
        | some c => .chosen c

/-- Per-ticket terminal outcome (the bracketed states of the spec's state
machine from stage resolution onward). -/
inductive Outcome where
  | noOpenStages
  | noCandidates
  | crashed
  | skippedByUser
  | invalidSelection
  | dryRunReported (taskId : Nat) (name : String)
  | assigned (taskId userId : Nat) (name : String)
  | assignFailed (taskId : Nat)
deriving DecidableEq

/-- The ranked candidate list the prompt displays for one ticket. -/
def pipelineRanked (env : Env) (pid : Nat) (pname : String) (cutoff : PyDateTime)
    (sids : List Nat) : List Cand :=
  rankCandidates (buildCandidates env.roleMap env.users (openTasksFor env.tasks pid sids)
    cutoff (candidateIdsFor env pid pname (openTasksFor env.tasks pid sids)))

/-- The per-ticket pipeline of `main` from stage resolution to the write
(lines 187-298), for a ticket already looked up (`taskId`) whose project is
present (`pid`, `pname`).  `cutoff` is the precomputed aware UTC instant
`now - recent_days` (line 220); `yn` and `sel` are the two console answers;
`writeOk` is the boolean the gateway write returns.  The second component
lists the `(task, user)` assignment writes issued. -/
def processTicket (env : Env) (taskId pid : Nat) (pname : String) (cutoff : PyDateTime)
    (yn sel : String) (dryRun writeOk : Bool) : Outcome × List (Nat × Nat) :=
  match resolveStages env.openStageNames env.stages with
  | none => (.noOpenStages, [])
  | some sids =>
    if (candidateIdsFor env pid pname (openTasksFor env.tasks pid sids)).isEmpty then
      (.noCandidates, [])
    else
      match selectCandidate (pipelineRanked env pid pname cutoff sids)
          (pyLower (pyStrip yn)) (pyStrip sel) with
      | .crash => (.crashed, [])
      | .skippedByUser => (.skippedByUser, [])
      | .invalid => (.invalidSelection, [])
      | .chosen c =>
        if dryRun then (.dryRunReported taskId c.name, [])
        else if writeOk then (.assigned taskId c.id c.name, [(taskId, c.id)])
        else (.assignFailed taskId, [(taskId, c.id)])

/-- A `project.task` row as read by `daily_morning.py` (line 100): `code`,
`name` and `project_id` may each be unset (Odoo returns `False`). -/
structure DigestTask where
  code : Option String
  name : Option String
  project : Option (Nat × String)
deriving DecidableEq

/-- Python `value or "-"`: unset and empty both render as a dash. -/
def orDash : Option String → String
  | none => "-"
  | some s => if s = "" then "-" else s

/-- `pname = t["project_id"][1] if t.get("project_id") else "No Project"`
(line 108). -/
def groupNameOf (t : DigestTask) : String :=
  match t.project with
  | some p => p.2
  | none => "No Project"

/-- `sorted(grouped.keys())` (line 121): the distinct group names in
insertion order, sorted ascending. -/
def groupKeys (ts : List DigestTask) : List String :=
  List.insertionSort strLE (firstDedup (ts.map groupNameOf))

/-- One rendered ticket line (lines 124-126): `<code> - <project> - <name>`
with missing fields as "-". -/
def renderLine (p : String) (t : DigestTask) : String :=
  orDash t.code ++ " - " ++ p ++ " - " ++ orDash t.name

/-- The grouped body of the digest (lines 104-127): for each group name in
ascending order, a header line, the group's ticket lines in input order, and
a blank separator line. -/
def digestLines (ts : List DigestTask) : List String :=
  (groupKeys ts).flatMap
    (fun p => p :: ((ts.filter (fun t => groupNameOf t == p)).map (renderLine p)) ++ [""])

theorem mem_foldl_dedup {α : Type} [DecidableEq α] (l : List α) (acc : List α) (x : α) :
    x ∈ l.foldl (fun acc a => if a ∈ acc then acc else acc ++ [a]) acc ↔ x ∈ acc ∨ x ∈ l := by
  induction l generalizing acc with
  | nil => simp
  | cons a l ih =>
    simp only [List.foldl_cons]
    rw [ih]
    by_cases h : a ∈ acc
    · simp only [if_pos h, List.mem_cons]
      constructor
      · rintro (hx | hx)
        · exact Or.inl hx
        · exact Or.inr (Or.inr hx)
      · rintro (hx | hx | hx)
        · exact Or.inl hx
        · exact Or.inl (hx ▸ h)
        · exact Or.inr hx
    · simp only [if_neg h, List.mem_append, List.mem_singleton, List.mem_cons]
      tauto

theorem mem_firstDedup {α : Type} [DecidableEq α] {l : List α} {x : α} :
    x ∈ firstDedup l ↔ x ∈ l := by
  unfold firstDedup
  rw [mem_foldl_dedup]
  simp

/-- Two sorted lists that are permutations of one another are equal, provided
the order is antisymmetric on the elements of the first. -/
theorem eq_of_perm_of_sorted_of_antisymmOn {α : Type} {r : α → α → Prop} :
    ∀ {l1 l2 : List α}, l1.Perm l2 → l1.Sorted r → l2.Sorted r →
      (∀ a ∈ l1, ∀ b ∈ l1, r a b → r b a → a = b) → l1 = l2
  | [], _, hp, _, _, _ => hp.nil_eq
  | a :: t, [], hp, _, _, _ => absurd hp.symm.nil_eq (by simp)
  | a :: t, b :: t2, hp, hs1, hs2, ha => by
    have hmem_a : a ∈ b :: t2 := hp.mem_iff.mp (List.mem_cons_self a t)
    have hmem_b : b ∈ a :: t := hp.symm.mem_iff.mp (List.mem_cons_self b t2)
    have hab : a = b := by
      rcases List.mem_cons.mp hmem_a with h | h
      · exact h
      · have hba : r b a := (List.sorted_cons.mp hs2).1 a h
        rcases List.mem_cons.mp hmem_b with h2 | h2
        · exact h2.symm
        · have hab' : r a b := (List.sorted_cons.mp hs1).1 b h2
          exact ha a (List.mem_cons_self a t) b (List.mem_cons_of_mem a h2) hab' hba
    subst hab
    have htl : t = t2 :=
      eq_of_perm_of_sorted_of_antisymmOn hp.cons_inv (List.sorted_cons.mp hs1).2
        (List.sorted_cons.mp hs2).2
        (fun x hx y hy => ha x (List.mem_cons_of_mem a hx) y (List.mem_cons_of_mem a hy))
    rw [htl]

/-- On a list of candidates with pairwise distinct display names, the sort
key order is antisymmetric. -/
theorem candLE_antisymm_on {l : List Cand}
    (hd : l.Pairwise (fun a b => a.name ≠ b.name)) :
    ∀ a ∈ l, ∀ b ∈ l, candLE a b → candLE b a → a = b := by
  intro a ha b hb h1 h2
  have hcount : a.count = b.count := by
    rcases h1 with h | ⟨h, _⟩ <;> rcases h2 with h' | ⟨h', _⟩ <;> omega
  have hn1 : strLE a.name b.name := by
    rcases h1 with h | ⟨_, hn⟩
    · exact absurd hcount (by omega)
    · exact hn
  have hn2 : strLE b.name a.name := by
    rcases h2 with h | ⟨_, hn⟩
    · exact absurd hcount (by omega)
    · exact hn
  have hname : a.name = b.name := pyStrLe_antisymm hn1 hn2
  by_cases hne : a = b
  · exact hne
  · exact absurd hname (hd.forall (by intro x y h e; exact h e.symm) ha hb hne)

theorem pyIndex_eq_none {α : Type} (l : List α) (i : Int)
    (h : i < -(l.length : Int) ∨ (l.length : Int) ≤ i) : pyIndex l i = none := by
  unfold pyIndex
  rcases h with h | h
  · rw [if_pos (by omega), if_pos (by omega)]
  · rw [if_neg (by omega)]
    exact List.getElem?_eq_none (by omega)

/-- The declined-confirmation branch of the decision protocol rejects a
selection exactly when Python `int` fails on it or the shifted index falls
outside Python's index range for the candidate list. -/
theorem selectCandidate_invalid (cands : List Cand) (yn sel : String)
    (hne : cands ≠ []) (hyn : yn ≠ "y") (hsel : sel ≠ "")
    (hbad : pyInt sel = none ∨
      ∃ n, pyInt sel = some n ∧
        (n - 1 < -(cands.length : Int) ∨ (cands.length : Int) ≤ n - 1)) :
    selectCandidate cands yn sel = .invalid := by
  match cands, hne with
  | c0 :: rest, _ =>
    simp only [selectCandidate]
    rw [if_neg hyn, if_neg hsel]
    rcases hbad with h | ⟨n, hn, hrange⟩
    · rw [h]
    · rw [hn]
      simp only [pyIndex_eq_none _ _ hrange]

/-- C1: the computed "recent" flag is never true.  `strptime` yields a
timezone-naive datetime while the cutoff `datetime.now(timezone.utc) -
timedelta(days=recent_days)` is timezone-aware, so the comparison
`dt >= cutoff` raises `TypeError` on every record and the bare `except`
swallows it.  Concretely: the write date `2026-10-10 08:00:00` parses, lies
on or after the cutoff `2026-10-05 08:00:00 UTC` field-wise (i.e. is inside
the 7-day window under the UTC reading), yet the developer's recent flag is
false — while the record still counts toward the workload. -/
theorem c1_recent_flag_never_true :
    strptimeDT "2026-10-10 08:00:00" = some ⟨2026, 10, 10, 8, 0, 0, false⟩ ∧
    dtFieldsLe ⟨2026, 10, 5, 8, 0, 0, true⟩ ⟨2026, 10, 10, 8, 0, 0, false⟩ = true ∧
    pyGE ⟨2026, 10, 10, 8, 0, 0, false⟩ ⟨2026, 10, 5, 8, 0, 0, true⟩ = .error () ∧
    recentOf ⟨2026, 10, 5, 8, 0, 0, true⟩
      [⟨10, 1, 1, some (1, "Dev"), some "2026-10-10 08:00:00"⟩] 1 = false ∧
    workloadCounts [⟨10, 1, 1, some (1, "Dev"), some "2026-10-10 08:00:00"⟩] 1 = 1 :=
  ⟨by decide, by decide, rfl, by decide, by decide⟩

/-- Environment for the C2 counterexample: two workload candidates Alice and
Bob (one open task each), no preference entry, fallback open stage. -/
def c2Env : Env :=
  ⟨[], [], [], [⟨1, "Open", false⟩],
    [⟨1, "Alice", none, none⟩, ⟨2, "Bob", none, none⟩],
    [⟨10, 1, 1, some (1, "Alice"), none⟩, ⟨11, 1, 1, some (2, "Bob"), none⟩]⟩

/-- C2 counterexample: declining the top suggestion and entering index "0"
against the 2-candidate ranked list [Alice, Bob] is NOT an invalid
selection: `int("0") - 1 = -1` and Python's negative indexing selects the
last candidate, so a write assigning Bob is issued. -/
theorem c2_index_zero_selects_last :
    processTicket c2Env 42 1 "Alpha" ⟨2026, 10, 5, 8, 0, 0, true⟩ "n" "0" false true =
      (.assigned 42 2 "Bob", [(42, 2)]) ∧
    processTicket c2Env 42 1 "Alpha" ⟨2026, 10, 5, 8, 0, 0, true⟩ "n" "0" false true ≠
      (.invalidSelection, []) :=
  ⟨by decide, by decide⟩

/-- C2 (amended): at the candidate-decision prompt, a declined confirmation
followed by a non-blank selection that is non-numeric, or whose shifted index
`int(sel) - 1` lies outside Python's index range `[-len, len-1]` for the
ranked list (e.g. "9" against 2 candidates), yields the invalid-selection
outcome for this ticket and no write; index "0" and other in-range negative
shifted indices instead select from the end of the list. -/
theorem c2_invalid_selection_amended (env : Env) (taskId pid : Nat) (pname : String)
    (cutoff : PyDateTime) (yn sel : String) (dryRun writeOk : Bool) (sids : List Nat)
    (hst : resolveStages env.openStageNames env.stages = some sids)
    (hcne : candidateIdsFor env pid pname (openTasksFor env.tasks pid sids) ≠ [])
    (hrne : pipelineRanked env pid pname cutoff sids ≠ [])
    (hyn : pyLower (pyStrip yn) ≠ "y")
    (hsel : pyStrip sel ≠ "")
    (hbad : pyInt (pyStrip sel) = none ∨
      ∃ n, pyInt (pyStrip sel) = some n ∧
        (n - 1 < -((pipelineRanked env pid pname cutoff sids).length : Int) ∨
          ((pipelineRanked env pid pname cutoff sids).length : Int) ≤ n - 1)) :
    processTicket env taskId pid pname cutoff yn sel dryRun writeOk =
      (.invalidSelection, []) := by
  have hs := selectCandidate_invalid (pipelineRanked env pid pname cutoff sids)
    (pyLower (pyStrip yn)) (pyStrip sel) hrne hyn hsel hbad
  simp [processTicket, hst, hs, hcne]

theorem c2_invalid_selection_witness :
    processTicket c2Env 42 1 "Alpha" ⟨2026, 10, 5, 8, 0, 0, true⟩ "n" "9" false true =
      (.invalidSelection, []) :=
  c2_invalid_selection_amended c2Env 42 1 "Alpha" ⟨2026, 10, 5, 8, 0, 0, true⟩ "n" "9"
    false true [1] (by decide) (by decide) (by decide) (by decide) (by decide)
    (Or.inr ⟨9, by decide, Or.inr (by decide)⟩)

/-- C4 counterexample: two distinct enriched candidate records sharing the
same open-ticket count and the same display name.  Python's sort is stable,
so the two permutations of the input produce two different ranked orders —
the resulting order is not the same for every permutation of the input. -/
theorem c4_equal_key_order_depends_on_input :
    (([⟨1, "Ann", "-", 0, false⟩, ⟨2, "Ann", "-", 0, false⟩] : List Cand).Perm
      [⟨2, "Ann", "-", 0, false⟩, ⟨1, "Ann", "-", 0, false⟩]) ∧
    rankCandidates [⟨1, "Ann", "-", 0, false⟩, ⟨2, "Ann", "-", 0, false⟩] ≠
      rankCandidates [⟨2, "Ann", "-", 0, false⟩, ⟨1, "Ann", "-", 0, false⟩] :=
  ⟨by decide, by decide⟩

/-- C4 (amended): the ranked list is a reordering of the enriched candidates
sorted descending by open-ticket count with ties broken ascending by display
name (plain code-point lexicographic comparison), and — provided the
candidates' display names are pairwise distinct, as the counterexample
forces — the resulting order is the same for every permutation of the input
candidate records. -/
theorem c4_ranking_amended (l l2 : List Cand)
    (hd : l.Pairwise (fun a b => a.name ≠ b.name)) (hp : l.Perm l2) :
    (rankCandidates l).Perm l ∧
    List.Pairwise
      (fun a b => b.count ≤ a.count ∧ (a.count = b.count → strLE a.name b.name))
      (rankCandidates l) ∧
    rankCandidates l = rankCandidates l2 := by
  refine ⟨List.perm_insertionSort candLE l, ?_, ?_⟩
  · refine (List.sorted_insertionSort candLE l).imp ?_
    intro a b hab
    rcases hab with h | ⟨h, hn⟩
    · exact ⟨Nat.le_of_lt h, fun he => absurd he (by omega)⟩
    · exact ⟨Nat.le_of_eq h.symm, fun _ => hn⟩
  · apply eq_of_perm_of_sorted_of_antisymmOn
    · exact ((List.perm_insertionSort candLE l).trans hp).trans
        (List.perm_insertionSort candLE l2).symm
    · exact List.sorted_insertionSort candLE l
    · exact List.sorted_insertionSort candLE l2
    · intro a ha b hb
      exact candLE_antisymm_on hd a ((List.perm_insertionSort candLE l).mem_iff.mp ha)
        b ((List.perm_insertionSort candLE l).mem_iff.mp hb)

theorem c4_ranking_witness :
    (rankCandidates [⟨1, "Bea", "-", 1, false⟩, ⟨2, "Al", "-", 2, false⟩,
        ⟨3, "Ann", "-", 1, false⟩]).Perm
      [⟨1, "Bea", "-", 1, false⟩, ⟨2, "Al", "-", 2, false⟩, ⟨3, "Ann", "-", 1, false⟩] ∧
    List.Pairwise
      (fun a b => b.count ≤ a.count ∧ (a.count = b.count → strLE a.name b.name))
      (rankCandidates [⟨1, "Bea", "-", 1, false⟩, ⟨2, "Al", "-", 2, false⟩,
        ⟨3, "Ann", "-", 1, false⟩]) ∧
    rankCandidates [⟨1, "Bea", "-", 1, false⟩, ⟨2, "Al", "-", 2, false⟩,
        ⟨3, "Ann", "-", 1, false⟩] =
      rankCandidates [⟨2, "Al", "-", 2, false⟩, ⟨3, "Ann", "-", 1, false⟩,
        ⟨1, "Bea", "-", 1, false⟩] :=
  c4_ranking_amended
    [⟨1, "Bea", "-", 1, false⟩, ⟨2, "Al", "-", 2, false⟩, ⟨3, "Ann", "-", 1, false⟩]
    [⟨2, "Al", "-", 2, false⟩, ⟨3, "Ann", "-", 1, false⟩, ⟨1, "Bea", "-", 1, false⟩]
    (by decide) (by decide)

/-- Environment for the C3 counterexample: the preference policy names the
unknown identifier "ghost" for project "Alpha", while developer 5 (Eve)
holds one open task in the project. -/
def c3Env : Env :=
  ⟨[], [("Alpha", ["ghost"])], [], [⟨1, "Open", false⟩],
    [⟨5, "Eve", none, none⟩], [⟨10, 1, 1, some (5, "Eve"), none⟩]⟩

/-- C3 counterexample: the PreferencePolicy has an entry matching project
"Alpha", yet the candidate set is not the (empty) set of resolved preferred
ids — because `preferred_ids if preferred_ids else list(counts.keys())`
treats the empty resolution as falsy, the workload developer 5, who is not
in the preference list, becomes a candidate. -/
theorem c3_empty_resolution_falls_back :
    pickProjectKey c3Env.preferredMap 1 "Alpha" = some "Alpha" ∧
    resolvedPreferredIds c3Env.users ["ghost"] = [] ∧
    candidateIdsFor c3Env 1 "Alpha" (openTasksFor c3Env.tasks 1 [1]) = [5] ∧
    ¬ (5 : Nat) ∈ resolvedPreferredIds c3Env.users ["ghost"] :=
  ⟨by decide, by decide, by decide, by decide⟩

/-- C3 (amended): whenever the PreferencePolicy has an entry matching the
ticket's project AND at least one of the entry's developer identifiers
resolves to a user, the candidate set is exactly the resolved user ids,
independent of current workload: every resolved preferred id appears in the
ranked list carrying its workload count (0 when it has no open task), and
every ranked candidate's id is a resolved preferred id.  (The
counterexample shows the proviso is necessary: an entry that resolves to
zero users falls back to the workload keys.) -/
theorem c3_preferred_candidates_amended (env : Env) (pid : Nat) (pname : String)
    (tasks' : List TaskRec) (cutoff : PyDateTime) (k : String)
    (hk : pickProjectKey env.preferredMap pid pname = some k)
    (hne : resolvedPreferredIds env.users ((env.preferredMap.lookup k).getD []) ≠ []) :
    candidateIdsFor env pid pname tasks' =
      resolvedPreferredIds env.users ((env.preferredMap.lookup k).getD []) ∧
    (∀ i ∈ resolvedPreferredIds env.users ((env.preferredMap.lookup k).getD []),
      ∃ c ∈ rankCandidates (buildCandidates env.roleMap env.users tasks' cutoff
          (candidateIdsFor env pid pname tasks')),
        c.id = i ∧ c.count = workloadCounts tasks' i) ∧
    (∀ c ∈ rankCandidates (buildCandidates env.roleMap env.users tasks' cutoff
        (candidateIdsFor env pid pname tasks')),
      c.id ∈ resolvedPreferredIds env.users ((env.preferredMap.lookup k).getD [])) := by
  have hcand : candidateIdsFor env pid pname tasks' =
      resolvedPreferredIds env.users ((env.preferredMap.lookup k).getD []) := by
    simp only [candidateIdsFor, preferredIdsFor, hk, Option.map]
    simp [List.isEmpty_iff, hne]
  refine ⟨hcand, ?_, ?_⟩
  · intro i hi
    obtain ⟨u, hu, hui⟩ := List.mem_map.mp hi
    obtain ⟨ident, _, hres⟩ := List.mem_filterMap.mp hu
    have humem : u ∈ env.users := List.mem_of_find?_eq_some hres
    have hsome : (env.users.find? (fun v => v.id == i)).isSome :=
      List.find?_isSome.mpr ⟨u, humem, by simp [hui]⟩
    obtain ⟨r, hr⟩ := Option.isSome_iff_exists.mp hsome
    have hri : r.id = i := by
      have := List.find?_some hr
      simpa using this
    refine ⟨enrich env.roleMap tasks' cutoff r, ?_, by simp [enrich, hri], by simp [enrich, hri]⟩
    simp only [rankCandidates]
    rw [List.mem_insertionSort]
    exact List.mem_map_of_mem _ (List.mem_filterMap.mpr ⟨i, hcand ▸ hi, hr⟩)
  · intro c hc
    simp only [rankCandidates] at hc
    have hc' := (List.mem_insertionSort candLE).mp hc
    obtain ⟨r, hr, hrc⟩ := List.mem_map.mp hc'
    obtain ⟨j, hj, hfind⟩ := List.mem_filterMap.mp hr
    have hrj : r.id = j := by
      have := List.find?_some hfind
      simpa using this
    rw [← hrc]
    simp only [enrich]
    rw [hrj]
    exact hcand ▸ hj

/-- Environment for the C3 witness: the preference policy names "carol" for
project "Alpha"; Carol (id 7) resolves by login and holds no open task. -/
def c3WEnv : Env :=
  ⟨[], [("Alpha", ["carol"])], [], [⟨1, "Open", false⟩],
    [⟨7, "Carol", some "carol", none⟩], []⟩

theorem c3_preferred_candidates_witness :
    candidateIdsFor c3WEnv 1 "Alpha" [] =
      resolvedPreferredIds c3WEnv.users ((c3WEnv.preferredMap.lookup "Alpha").getD []) ∧
    (∀ i ∈ resolvedPreferredIds c3WEnv.users ((c3WEnv.preferredMap.lookup "Alpha").getD []),
      ∃ c ∈ rankCandidates (buildCandidates c3WEnv.roleMap c3WEnv.users [] ⟨2026, 10, 5, 8, 0, 0, true⟩
          (candidateIdsFor c3WEnv 1 "Alpha" [])),
        c.id = i ∧ c.count = workloadCounts [] i) ∧
    (∀ c ∈ rankCandidates (buildCandidates c3WEnv.roleMap c3WEnv.users [] ⟨2026, 10, 5, 8, 0, 0, true⟩
        (candidateIdsFor c3WEnv 1 "Alpha" [])),
      c.id ∈ resolvedPreferredIds c3WEnv.users ((c3WEnv.preferredMap.lookup "Alpha").getD [])) :=
  c3_preferred_candidates_amended c3WEnv 1 "Alpha" [] ⟨2026, 10, 5, 8, 0, 0, true⟩ "Alpha"
    (by decide) (by decide)

/-- C5: if the configured open-stage name list is empty or resolves to zero
stage ids, the open-stage set is the set of non-folded stages; and if that
fallback also yields zero ids, the ticket's pipeline reports the no-open-
stages outcome and issues no write (the outer loop then proceeds to the next
reference code). -/
theorem c5_stage_fallback (env : Env)
    (h : env.openStageNames = [] ∨ stageIdsByName env.openStageNames env.stages = []) :
    resolveStages env.openStageNames env.stages =
      (if nonFoldedIds env.stages = [] then none else some (nonFoldedIds env.stages)) ∧
    (nonFoldedIds env.stages = [] →
      ∀ taskId pid pname cutoff yn sel dryRun writeOk,
        processTicket env taskId pid pname cutoff yn sel dryRun writeOk =
          (.noOpenStages, [])) := by
  have hres : resolveStages env.openStageNames env.stages =
      (if nonFoldedIds env.stages = [] then none else some (nonFoldedIds env.stages)) := by
    have hby : (if env.openStageNames = [] then []
        else stageIdsByName env.openStageNames env.stages) = [] := by
      rcases h with h | h
      · simp [h]
      · simp [h]
    unfold resolveStages
    simp only [List.isEmpty_iff]
    rw [hby]
    simp
  refine ⟨hres, ?_⟩
  intro hnf taskId pid pname cutoff yn sel dryRun writeOk
  have : resolveStages env.openStageNames env.stages = none := by
    rw [hres, if_pos hnf]
  simp [processTicket, this]

theorem c5_stage_fallback_witness :
    (resolveStages ["Doing"] [⟨1, "Open", false⟩, ⟨2, "Done", true⟩] =
      (if nonFoldedIds [⟨1, "Open", false⟩, ⟨2, "Done", true⟩] = [] then none
        else some (nonFoldedIds [⟨1, "Open", false⟩, ⟨2, "Done", true⟩]))) ∧
    (resolveStages ["Doing"] [⟨2, "Done", true⟩] = none ∧
      processTicket ⟨["Doing"], [], [], [⟨2, "Done", true⟩], [], []⟩ 42 1 "Alpha"
        ⟨2026, 10, 5, 8, 0, 0, true⟩ "y" "" false true = (.noOpenStages, [])) := by
  constructor
  · exact (c5_stage_fallback ⟨["Doing"], [], [], [⟨1, "Open", false⟩, ⟨2, "Done", true⟩], [], []⟩
      (Or.inr (by decide))).1
  · constructor
    · have := (c5_stage_fallback ⟨["Doing"], [], [], [⟨2, "Done", true⟩], [], []⟩
        (Or.inr (by decide))).1
      simpa using this
    · exact (c5_stage_fallback ⟨["Doing"], [], [], [⟨2, "Done", true⟩], [], []⟩
        (Or.inr (by decide))).2 (by decide) 42 1 "Alpha" ⟨2026, 10, 5, 8, 0, 0, true⟩ "y" "" false true

/-- C6: an open-ticket record whose last-write timestamp is missing or fails
to parse never raises (the aggregation is total), still increments its
developer's open-ticket count, and contributes nothing to that developer's
recency flag. -/
theorem c6_unparsable_timestamp_tolerated (cutoff : PyDateTime) (tasks : List TaskRec)
    (t : TaskRec) (u : Nat) (nm : String)
    (hu : t.userId = some (u, nm))
    (hw : t.writeDate = none ∨ ∃ s, t.writeDate = some s ∧ strptimeDT s = none) :
    workloadCounts (t :: tasks) u = workloadCounts tasks u + 1 ∧
    recentOf cutoff (t :: tasks) u = recentOf cutoff tasks u := by
  have htu : taskUser t = some u := by simp [taskUser, hu]
  constructor
  · simp [workloadCounts, List.filter_cons, htu]
  · have hcontrib : recentContribution cutoff t.writeDate = false := by
      rcases hw with h | ⟨s, hs, hp⟩
      · rw [h]
        rfl
      · rw [hs]
        simp [recentContribution, hp]
    simp [recentOf, List.any_cons, htu, hcontrib]

theorem c6_unparsable_timestamp_witness :
    workloadCounts [⟨10, 1, 1, some (1, "Dev"), some "not-a-date"⟩] 1 =
      workloadCounts [] 1 + 1 ∧
    recentOf ⟨2026, 10, 5, 8, 0, 0, true⟩ [⟨10, 1, 1, some (1, "Dev"), some "not-a-date"⟩] 1 =
      recentOf ⟨2026, 10, 5, 8, 0, 0, true⟩ [] 1 :=
  c6_unparsable_timestamp_tolerated ⟨2026, 10, 5, 8, 0, 0, true⟩ []
    ⟨10, 1, 1, some (1, "Dev"), some "not-a-date"⟩ 1 "Dev" (by decide)
    (Or.inr ⟨"not-a-date", rfl, by decide⟩)

theorem roleLookup_nil (x : Option String) : roleLookup [] x = none := by
  cases x with
  | none => rfl
  | some k => simp [roleLookup, List.lookup]

/-- C7 counterexample: the role map has no key for user Bob, so enrichment
attaches the literal sentinel "-" — not the label "unknown". -/
theorem c7_sentinel_is_dash :
    buildCandidates [("Alice", "dev")] [⟨7, "Bob", none, none⟩] [] ⟨2026, 10, 5, 8, 0, 0, true⟩
      [7] = [⟨7, "Bob", "-", 0, false⟩] ∧
    resolveRole [("Alice", "dev")] ⟨7, "Bob", none, none⟩ = "-" ∧
    resolveRole [("Alice", "dev")] ⟨7, "Bob", none, none⟩ ≠ "unknown" :=
  ⟨by decide, by decide, by decide⟩

/-- C7 (amended): for every candidate id found in the user table, the
enriched record is in the candidate list and carries: the open-ticket count
of the workload map (0 when the id holds no open task), the recent flag of
the recency map (false when absent), and a role label resolved by checking
the RolePolicy for the display name, then the login, then the email — first
truthy key present in the policy wins — with the literal sentinel "-" (not
"unknown") when no key matches; enrichment is a total function and never
fails. -/
theorem c7_enrichment_amended (roleMap : List (String × String)) (users : List UserRec)
    (tasks' : List TaskRec) (cutoff : PyDateTime) (cids : List Nat) (i : Nat) (u : UserRec)
    (hmem : i ∈ cids) (hfind : users.find? (fun v => v.id == i) = some u) :
    enrich roleMap tasks' cutoff u ∈ buildCandidates roleMap users tasks' cutoff cids ∧
    (enrich roleMap tasks' cutoff u).count = workloadCounts tasks' u.id ∧
    (enrich roleMap tasks' cutoff u).recent = recentOf cutoff tasks' u.id ∧
    ((∀ t ∈ tasks', taskUser t ≠ some u.id) →
      (enrich roleMap tasks' cutoff u).count = 0 ∧
      (enrich roleMap tasks' cutoff u).recent = false) ∧
    (∀ r, roleLookup roleMap (some u.name) = some r →
      (enrich roleMap tasks' cutoff u).role = r) ∧
    (roleLookup roleMap (some u.name) = none →
      ∀ r, roleLookup roleMap u.login = some r → (enrich roleMap tasks' cutoff u).role = r) ∧
    (roleLookup roleMap (some u.name) = none → roleLookup roleMap u.login = none →
      ∀ r, roleLookup roleMap u.email = some r → (enrich roleMap tasks' cutoff u).role = r) ∧
    (roleLookup roleMap (some u.name) = none → roleLookup roleMap u.login = none →
      roleLookup roleMap u.email = none → (enrich roleMap tasks' cutoff u).role = "-") := by
  refine ⟨?_, rfl, rfl, ?_, ?_, ?_, ?_, ?_⟩
  · exact List.mem_map_of_mem _ (List.mem_filterMap.mpr ⟨i, hmem, hfind⟩)
  · intro h
    constructor
    · simp only [enrich, workloadCounts, List.length_eq_zero, List.filter_eq_nil_iff]
      intro t' ht'
      simpa using h t' ht'
    · simp only [enrich, recentOf, List.any_eq_false]
      intro t' ht'
      have := h t' ht'
      simp [this]
  · intro r h
    have hM : ¬ roleMap.isEmpty = true := by
      intro hM
      rw [List.isEmpty_iff.mp hM, roleLookup_nil] at h
      cases h
    simp [enrich, resolveRole, hM, h, Option.orElse]
  · intro h1 r h
    have hM : ¬ roleMap.isEmpty = true := by
      intro hM
      rw [List.isEmpty_iff.mp hM, roleLookup_nil] at h
      cases h
    simp [enrich, resolveRole, hM, h1, h, Option.orElse]
  · intro h1 h2 r h
    have hM : ¬ roleMap.isEmpty = true := by
      intro hM
      rw [List.isEmpty_iff.mp hM, roleLookup_nil] at h
      cases h
    simp [enrich, resolveRole, hM, h1, h2, h, Option.orElse]
  · intro h1 h2 h3
    by_cases hM : roleMap.isEmpty
    · simp [enrich, resolveRole, hM]
    · simp [enrich, resolveRole, hM, h1, h2, h3, Option.orElse]

theorem c7_enrichment_witness :
    enrich [("Alice", "dev")] [] ⟨2026, 10, 5, 8, 0, 0, true⟩ ⟨7, "Bob", none, none⟩ ∈
      buildCandidates [("Alice", "dev")] [⟨7, "Bob", none, none⟩] []
        ⟨2026, 10, 5, 8, 0, 0, true⟩ [7] ∧
    (enrich [("Alice", "dev")] [] ⟨2026, 10, 5, 8, 0, 0, true⟩ ⟨7, "Bob", none, none⟩).count =
      workloadCounts [] 7 ∧
    (enrich [("Alice", "dev")] [] ⟨2026, 10, 5, 8, 0, 0, true⟩ ⟨7, "Bob", none, none⟩).recent =
      recentOf ⟨2026, 10, 5, 8, 0, 0, true⟩ [] 7 ∧
    ((∀ t ∈ ([] : List TaskRec), taskUser t ≠ some 7) →
      (enrich [("Alice", "dev")] [] ⟨2026, 10, 5, 8, 0, 0, true⟩ ⟨7, "Bob", none, none⟩).count = 0 ∧
      (enrich [("Alice", "dev")] [] ⟨2026, 10, 5, 8, 0, 0, true⟩ ⟨7, "Bob", none, none⟩).recent = false) ∧
    (∀ r, roleLookup [("Alice", "dev")] (some "Bob") = some r →
      (enrich [("Alice", "dev")] [] ⟨2026, 10, 5, 8, 0, 0, true⟩ ⟨7, "Bob", none, none⟩).role = r) ∧
    (roleLookup [("Alice", "dev")] (some "Bob") = none →
      ∀ r, roleLookup [("Alice", "dev")] none = some r →
        (enrich [("Alice", "dev")] [] ⟨2026, 10, 5, 8, 0, 0, true⟩ ⟨7, "Bob", none, none⟩).role = r) ∧
    (roleLookup [("Alice", "dev")] (some "Bob") = none → roleLookup [("Alice", "dev")] none = none →
      ∀ r, roleLookup [("Alice", "dev")] none = some r →
        (enrich [("Alice", "dev")] [] ⟨2026, 10, 5, 8, 0, 0, true⟩ ⟨7, "Bob", none, none⟩).role = r) ∧
    (roleLookup [("Alice", "dev")] (some "Bob") = none → roleLookup [("Alice", "dev")] none = none →
      roleLookup [("Alice", "dev")] none = none →
      (enrich [("Alice", "dev")] [] ⟨2026, 10, 5, 8, 0, 0, true⟩ ⟨7, "Bob", none, none⟩).role = "-") :=
  c7_enrichment_amended [("Alice", "dev")] [⟨7, "Bob", none, none⟩] []
    ⟨2026, 10, 5, 8, 0, 0, true⟩ [7] 7 ⟨7, "Bob", none, none⟩ (by decide) (by decide)

/-- C8: a ticket whose candidate set is empty is reported as the
no-candidates outcome and no assignment write is issued; the outer loop then
proceeds to the next reference code. -/
theorem c8_no_write_without_candidates (env : Env) (taskId pid : Nat) (pname : String)
    (cutoff : PyDateTime) (yn sel : String) (dryRun writeOk : Bool) (sids : List Nat)
    (hst : resolveStages env.openStageNames env.stages = some sids)
    (hc : candidateIdsFor env pid pname (openTasksFor env.tasks pid sids) = []) :
    processTicket env taskId pid pname cutoff yn sel dryRun writeOk =
      (.noCandidates, []) := by
  simp [processTicket, hst, hc]

theorem c8_no_write_without_candidates_witness :
    processTicket ⟨[], [], [], [⟨1, "Open", false⟩], [], []⟩ 42 1 "Alpha"
      ⟨2026, 10, 5, 8, 0, 0, true⟩ "y" "" false true = (.noCandidates, []) :=
  c8_no_write_without_candidates ⟨[], [], [], [⟨1, "Open", false⟩], [], []⟩ 42 1 "Alpha"
    ⟨2026, 10, 5, 8, 0, 0, true⟩ "y" "" false true [1] (by decide) (by decide)

/-- C9: when dry-run mode is active and the decision resolves to a chosen
candidate, no write is issued (the writes list is empty, so the ticket's
assignee is untouched) and the reported outcome names the would-be
assignee. -/
theorem c9_dry_run_no_write (env : Env) (taskId pid : Nat) (pname : String)
    (cutoff : PyDateTime) (yn sel : String) (writeOk : Bool) (sids : List Nat) (c : Cand)
    (hst : resolveStages env.openStageNames env.stages = some sids)
    (hcne : candidateIdsFor env pid pname (openTasksFor env.tasks pid sids) ≠ [])
    (hsel : selectCandidate (pipelineRanked env pid pname cutoff sids)
      (pyLower (pyStrip yn)) (pyStrip sel) = .chosen c) :
    processTicket env taskId pid pname cutoff yn sel true writeOk =
      (.dryRunReported taskId c.name, []) := by
  simp [processTicket, hst, hcne, hsel]

/-- Environment for the C9 witness: a single candidate (Alice, one open
task), confirmed with "y" under dry-run. -/
def c9Env : Env :=
  ⟨[], [], [], [⟨1, "Open", false⟩], [⟨1, "Alice", none, none⟩],
    [⟨10, 1, 1, some (1, "Alice"), none⟩]⟩

theorem c9_dry_run_no_write_witness :
    processTicket c9Env 42 1 "Alpha" ⟨2026, 10, 5, 8, 0, 0, true⟩ "y" "" true true =
      (.dryRunReported 42 "Alice", []) :=
  c9_dry_run_no_write c9Env 42 1 "Alpha" ⟨2026, 10, 5, 8, 0, 0, true⟩ "y" "" true [1]
    ⟨1, "Alice", "-", 1, false⟩ (by decide) (by decide) (by decide)

/-- C10: a digest ticket whose project reference is absent is not dropped:
it is grouped under the literal group name "No Project" and its line is
rendered in that group's section like any other; the group headers are the
distinct group names in ascending (code-point lexicographic) order; a
missing code renders as "-" (as does a missing title, via `orDash`). -/
theorem c10_no_project_group (ts : List DigestTask) (t : DigestTask)
    (hmem : t ∈ ts) (hnp : t.project = none) :
    "No Project" ∈ groupKeys ts ∧
    renderLine "No Project" t ∈ digestLines ts ∧
    List.Sorted strLE (groupKeys ts) ∧
    (t.code = none → renderLine "No Project" t = "- - No Project - " ++ orDash t.name) := by
  have hg : groupNameOf t = "No Project" := by simp [groupNameOf, hnp]
  have hkey : "No Project" ∈ groupKeys ts := by
    simp only [groupKeys]
    rw [List.mem_insertionSort, mem_firstDedup]
    exact hg ▸ List.mem_map_of_mem groupNameOf hmem
  refine ⟨hkey, ?_, ?_, ?_⟩
  · simp only [digestLines]
    rw [List.mem_flatMap]
    refine ⟨"No Project", hkey, ?_⟩
    apply List.mem_cons_of_mem
    apply List.mem_append_left
    apply List.mem_map_of_mem
    rw [List.mem_filter]
    exact ⟨hmem, by simp [hg]⟩
  · exact List.sorted_insertionSort strLE _
  · intro hc
    simp only [renderLine, hc]
    rfl

theorem c10_no_project_group_witness :
    "No Project" ∈ groupKeys [⟨none, some "Fix", none⟩,
      ⟨some "TSK-A-1", some "Zeta", some (1, "Beta")⟩] ∧
    renderLine "No Project" ⟨none, some "Fix", none⟩ ∈
      digestLines [⟨none, some "Fix", none⟩, ⟨some "TSK-A-1", some "Zeta", some (1, "Beta")⟩] ∧
    List.Sorted strLE (groupKeys [⟨none, some "Fix", none⟩,
      ⟨some "TSK-A-1", some "Zeta", some (1, "Beta")⟩]) ∧
    ((⟨none, some "Fix", none⟩ : DigestTask).code = none →
      renderLine "No Project" ⟨none, some "Fix", none⟩ =
        "- - No Project - " ++ orDash (some "Fix")) :=
  c10_no_project_group [⟨none, some "Fix", none⟩, ⟨some "TSK-A-1", some "Zeta", some (1, "Beta")⟩]
    ⟨none, some "Fix", none⟩ (by decide) (by decide)
